import Mathlib

/-!
Shallow embedding of the detection and triage core of the SOC demo platform
(src/rules/detect.py, src/rules/rules_engine.py, src/agent/agent.py,
src/web/app.py), together with theorems settling the specification claims.

Numeric conventions: Python floats are modelled as exact rationals and the
builtin round is modelled as exact round-half-to-even; timestamps and dates
are rationals counting seconds.  Environment-produced values that no claim
depends on (uuid4 identifiers, wall-clock timestamps attached to freshly
created alerts and records) are taken as parameters or omitted, as noted on
each definition.
-/

namespace SOC

/-! ### Python numeric and string helpers -/

/-- Round-half-to-even of a rational to an integer, the banker rounding used
by the Python builtin round. -/
def roundHalfEven (q : ℚ) : ℤ :=
  if q - (⌊q⌋ : ℚ) < 1/2 then ⌊q⌋
  else if 1/2 < q - (⌊q⌋ : ℚ) then ⌊q⌋ + 1
  else if ⌊q⌋ % 2 = 0 then ⌊q⌋ else ⌊q⌋ + 1

/-- Python round(x, 2): round to two decimal places, half to even. -/
def round2 (q : ℚ) : ℚ := (roundHalfEven (q * 100) : ℚ) / 100

/-- Python list slice l[-n:]: the last n elements (the whole list when it has
fewer than n elements). -/
def pyLastN (n : Nat) (l : List α) : List α := l.drop (l.length - n)

/-- Python str.capitalize: first character uppercased, the rest lowercased
(ASCII approximation). -/
def pyCapitalize (s : String) : String :=
  match s.data with
  | [] => ""
  | c :: cs => String.mk (c.toUpper :: cs.map Char.toLower)

/-- Python str.strip(): remove leading and trailing whitespace. -/
def pyStrip (s : String) : String :=
  String.mk (((s.data.dropWhile Char.isWhitespace).reverse.dropWhile
    Char.isWhitespace).reverse)

/-- First-occurrence deduplication by key, with an accumulator of keys already
seen.  Models both the pandas groupby-take-first in detect.py (whose only
difference, sorting of group keys, affects output order and no claim) and the
explicit seen-set loop of rules_engine.py lines 173-180. -/
def dedupByKeyGo (key : α → β) [DecidableEq β] (seen : List β) : List α → List α
  | [] => []
  | x :: xs =>
    if key x ∈ seen then dedupByKeyGo key seen xs
    else x :: dedupByKeyGo key (key x :: seen) xs

/-- Keep the first element for every key, in first-occurrence order. -/
def dedupByKey (key : α → β) [DecidableEq β] (l : List α) : List α :=
  dedupByKeyGo key [] l

/-! ### Detection engine configuration (DetectionEngine.__init__, detect.py
lines 40-48) -/

/-- Whitelist of authorized ports, detect.py line 41.  Note that 3389 is on
this whitelist. -/
def authorized_ports : List ℤ := [22, 80, 443, 3389]

/-- Impossible-travel speed threshold in mph, detect.py line 44. -/
def impossible_travel_mph : ℚ := 500

/-- Patch-drift critical threshold in days, detect.py line 45. -/
def patch_drift_critical_days : ℤ := 60

/-- Patch-drift high threshold in days, detect.py line 46. -/
def patch_drift_high_days : ℤ := 30

/-- The known risky ports literal of detect.py line 248. -/
def known_risky_ports : List ℤ := [23, 5900, 8080, 8888, 9999]

/-! ### Impossible travel (DetectionEngine.detect_impossible_travel,
detect.py lines 105-173) -/

/-- One authentication event row of auth_events.csv as read by detect.py;
the timestamp is in seconds. -/
structure AuthEvent where
  user : String
  timestamp : ℚ
  lat : ℚ
  lon : ℚ
  city : String
  country : String
  source_ip : String
  deriving DecidableEq, Repr

/-- An impossible-travel alert: the type, description and evidence fields
built at detect.py lines 142-167.  The uuid and creation timestamp are
environment-produced and omitted. -/
structure TravelAlert where
  severity : String
  description : String
  user : String
  location1 : String
  location2 : String
  timestamp1 : ℚ
  timestamp2 : ℚ
  distance_miles : ℚ
  time_hours : ℚ
  speed_mph : ℚ
  ip1 : String
  ip2 : String
  deriving DecidableEq, Repr

/-- Consecutive pairs of a list, matching the index loop of detect.py
line 122. -/
def consecutivePairs (l : List α) : List (α × α) := l.zip l.tail

/-- Elapsed time in hours between two events, detect.py line 133. -/
def travelElapsedHours (c n : AuthEvent) : ℚ := (n.timestamp - c.timestamp) / 3600

/-- Body of the pair loop of detect_impossible_travel (detect.py lines
127-169).  The great-circle distance function (geopy geodesic, an external
library) is a parameter dist.  Returns the alert emitted for the pair, if
any. -/
def travelAlertForPair (dist : ℚ × ℚ → ℚ × ℚ → ℚ) (c n : AuthEvent) :
    Option TravelAlert :=
  let distance_miles := dist (c.lat, c.lon) (n.lat, n.lon)
  let time_diff := travelElapsedHours c n
  if 0 < time_diff then
    let speed_mph := distance_miles / time_diff
    if impossible_travel_mph < speed_mph then
      some { severity := if 1000 < speed_mph then "critical" else "high"
             description := "Impossible travel detected for " ++ c.user
             user := c.user
             location1 := c.city ++ ", " ++ c.country
             location2 := n.city ++ ", " ++ n.country
             timestamp1 := c.timestamp
             timestamp2 := n.timestamp
             distance_miles := round2 distance_miles
             time_hours := round2 time_diff
             speed_mph := round2 speed_mph
             ip1 := c.source_ip
             ip2 := n.source_ip }
    else none
  else none

/-- detect_impossible_travel restricted to a single principal: the events of
one user, in ascending timestamp order (the per-group slice after the
sort_values of detect.py line 116), scanned pairwise. -/
def detect_impossible_travel_user (dist : ℚ × ℚ → ℚ × ℚ → ℚ)
    (events : List AuthEvent) : List TravelAlert :=
  (consecutivePairs events).filterMap (fun p => travelAlertForPair dist p.1 p.2)

/-! ### Patch drift (DetectionEngine.detect_patch_drift, detect.py lines
175-222) -/

/-- One host row of host_inventory.csv with a successfully parsed patch date
(in seconds); rows read by detect.py carry these columns. -/
structure HostRecord where
  hostname : String
  ip : String
  os : String
  last_patch_date : ℚ
  critical_apps : String
  location : String
  criticality : String
  deriving DecidableEq, Repr

/-- A patch-drift alert with the evidence fields of detect.py lines 197-219
(uuid and creation timestamp omitted as environment-produced). -/
structure PatchAlert where
  severity : String
  description : String
  hostname : String
  ip : String
  os : String
  last_patch_date : ℚ
  days_since_patch : ℤ
  critical_apps : String
  location : String
  deriving DecidableEq, Repr

/-- (current_time - host.last_patch_date).days of detect.py line 188:
Python timedelta.days floors toward minus infinity. -/
def daysSincePatch (current_time : ℚ) (h : HostRecord) : ℤ :=
  ⌊(current_time - h.last_patch_date) / 86400⌋

/-- Body of the host loop of detect_patch_drift (detect.py lines 187-222). -/
def patchAlertForHost (current_time : ℚ) (h : HostRecord) : Option PatchAlert :=
  let d := daysSincePatch current_time h
  let sev : Option String :=
    if patch_drift_critical_days < d then some "critical"
    else if patch_drift_high_days < d then some "high"
    else none
  sev.map fun severity =>
    { severity := severity
      description := "Critical patch drift detected on " ++ h.hostname
      hostname := h.hostname
      ip := h.ip
      os := h.os
      last_patch_date := h.last_patch_date
      days_since_patch := d
      critical_apps := h.critical_apps
      location := h.location }

/-- detect_patch_drift over a host inventory. -/
def detect_patch_drift (current_time : ℚ) (hosts : List HostRecord) :
    List PatchAlert :=
  hosts.filterMap (patchAlertForHost current_time)

/-! ### Unauthorized ports (DetectionEngine.detect_open_ports, detect.py
lines 224-276) -/

/-- One firewall log row of firewall_logs.csv as read by detect.py (the
timestamp is kept as its display string; it is only carried into evidence). -/
structure FirewallRecord where
  timestamp : String
  hostname : String
  dest_port : ℤ
  source_ip : String
  action : String
  deriving DecidableEq, Repr

/-- An unauthorized-port alert with the evidence fields of detect.py lines
253-273 (uuid and creation timestamp omitted). -/
structure PortAlert where
  severity : String
  description : String
  hostname : String
  port : ℤ
  source_ip : String
  last_seen : String
  deriving DecidableEq, Repr

/-- Body of the port_summary loop of detect_open_ports (detect.py lines
243-276): whitelisted ports yield nothing, others an alert whose severity
depends on the known risky ports literal. -/
def portAlertForEntry (e : FirewallRecord) : Option PortAlert :=
  if e.dest_port ∈ authorized_ports then none
  else
    some { severity := if e.dest_port ∈ known_risky_ports then "high" else "medium"
           description := "Unauthorized port " ++ toString e.dest_port
             ++ " open on " ++ e.hostname
           hostname := e.hostname
           port := e.dest_port
           source_ip := e.source_ip
           last_seen := e.timestamp }

/-- detect_open_ports: filter ALLOW actions, collapse to one row per
(hostname, dest_port) keeping the first source_ip and timestamp (the pandas
groupby of detect.py lines 238-241), then alert per non-whitelisted row. -/
def detect_open_ports (logs : List FirewallRecord) : List PortAlert :=
  let allowed := logs.filter (fun l => l.action == "ALLOW")
  let port_summary := dedupByKey (fun l => (l.hostname, l.dest_port)) allowed
  port_summary.filterMap portAlertForEntry

/-! ### Legacy unauthorized-port detector (rules_engine.py lines 134-182) -/

/-- Whitelist of rules_engine.py line 16. -/
def ALLOWED_PORTS : List ℤ := [22, 80, 443, 53, 5432, 3306, 445]

/-- One firewall log row in the rules_engine.py schema. -/
structure FirewallLogRE where
  timestamp : String
  src_ip : String
  dst_ip : String
  dst_port : ℤ
  protocol : String
  bytes : ℤ
  action : String
  deriving DecidableEq, Repr

/-- An open_port_anomaly alert of rules_engine.py lines 151-171 (uuid
omitted). -/
structure PortAnomalyAlert where
  severity : String
  host : String
  description : String
  source_ip : String
  destination_ip : String
  destination_port : ℤ
  protocol : String
  bytes : ℤ
  timestamp : String
  deriving DecidableEq, Repr

/-- Body of the log loop of detect_open_port_anomalies (rules_engine.py lines
141-171). -/
def portAnomalyForLog (l : FirewallLogRE) : Option PortAnomalyAlert :=
  if l.dst_port ∈ ALLOWED_PORTS then none
  else
    some { severity := if l.dst_port ∈ ([23, 21, 3389, 1433] : List ℤ)
                       then "HIGH" else "MEDIUM"
           host := l.dst_ip
           description := "Suspicious traffic allowed to port "
             ++ toString l.dst_port ++ " on " ++ l.dst_ip
           source_ip := l.src_ip
           destination_ip := l.dst_ip
           destination_port := l.dst_port
           protocol := l.protocol
           bytes := l.bytes
           timestamp := l.timestamp }

/-- detect_open_port_anomalies: one alert per non-whitelisted ALLOW record,
then duplicates with the same (host, destination_port) removed keeping the
first (rules_engine.py lines 173-182). -/
def detect_open_port_anomalies (logs : List FirewallLogRE) :
    List PortAnomalyAlert :=
  let allowed := logs.filter (fun l => l.action == "ALLOW")
  let alerts := allowed.filterMap portAnomalyForLog
  dedupByKey (fun a => (a.host, a.destination_port)) alerts

/-! ### Triage engine (AIAgent, src/agent/agent.py)

The LLM response reaching adjust_confidence_with_feedback is an arbitrary
parsed JSON object, so its confidence field can be a number, a string, a
boolean or null; only that field takes part in arithmetic during triage, so
it is the one field given the dynamic type JVal (wrapped in Option because
the key may be absent, agent.py line 317 uses a default of 0.7).  The other
fields are only carried through, and are given their intended types. -/

/-- A JSON scalar value, as far as the triage arithmetic distinguishes
values.  Containers never arise in the claims settled here. -/
inductive JVal where
  | num (q : ℚ)
  | str (s : String)
  | bool (b : Bool)
  | null
  deriving DecidableEq, Repr

/-- Python + between a dynamically typed left operand and a float: numbers
add, booleans coerce to 0 or 1 (bool is an int subtype), strings and None
raise TypeError (agent.py line 318). -/
def pyAddJQ : JVal → ℚ → Except String ℚ
  | .num a, b => .ok (a + b)
  | .bool b, q => .ok ((if b then 1 else 0) + q)
  | .str _, _ => .error "TypeError"
  | .null, _ => .error "TypeError"

/-- An alert dictionary as the agent reads it via .get: the fields accessed
by analyze_alert, _fallback_analysis and adjust_confidence_with_feedback.
severity and description are Option because the code supplies .get
defaults for them. -/
structure AgentAlert where
  id : String
  type : String
  severity : Option String
  description : Option String
  suggested_actions : List String
  deriving DecidableEq, Repr

/-- An analysis dictionary: the structure the fallback produces and the
shape of a parsed LLM response (agent.py lines 203-212 and 273-281). -/
structure Analysis where
  risk_score : JVal
  risk_justification : String
  threat_analysis : String
  operational_impact : String
  remediation_steps : List String
  confidence : Option JVal
  feedback_adjusted : Bool
  deriving DecidableEq, Repr

/-- A feedback entry as the agent reads it via .get (agent.py lines 109-128,
304-313): alert_type, action and reason may be absent. -/
structure FeedbackEntry where
  alert_id : String
  alert_type : Option String
  action : Option String
  reason : Option String
  timestamp : String
  analyst : String
  deriving DecidableEq, Repr

/-- The severity_scores dictionary lookup with its .get default of 5
(agent.py lines 264-271). -/
def severity_scores (s : String) : ℤ :=
  if s = "critical" then 9
  else if s = "high" then 7
  else if s = "medium" then 5
  else if s = "low" then 3
  else 5

/-- AIAgent._fallback_analysis (agent.py lines 254-281). -/
def fallback_analysis (alert : AgentAlert) : Analysis :=
  let sev := alert.severity.getD "medium"
  { risk_score := .num (severity_scores sev : ℚ)
    risk_justification := pyCapitalize sev ++ " severity alert detected by rules engine"
    threat_analysis := "Alert type: " ++ alert.type ++ ". "
      ++ alert.description.getD "Security event detected"
    operational_impact := "Potential impact on critical infrastructure operations"
    remediation_steps := alert.suggested_actions.take 3
    confidence := some (.num (6/10))
    feedback_adjusted := false }

/-- feedback[-20:] of build_feedback_context (agent.py line 107). -/
def recent_feedback (feedback : List FeedbackEntry) : List FeedbackEntry :=
  pyLastN 20 feedback

/-- The approved entries among the last 20 (agent.py line 109). -/
def context_approved (feedback : List FeedbackEntry) : List FeedbackEntry :=
  (recent_feedback feedback).filter (fun f => f.action == some "approved")

/-- The rejected entries among the last 20 (agent.py line 110). -/
def context_rejected (feedback : List FeedbackEntry) : List FeedbackEntry :=
  (recent_feedback feedback).filter (fun f => f.action == some "rejected")

/-- One pattern line of the context (agent.py lines 118-121). -/
def feedbackLine (e : FeedbackEntry) : String :=
  "  - Alert type: " ++ e.alert_type.getD "unknown"
    ++ ", Reason: " ++ e.reason.getD "N/A"

/-- AIAgent.build_feedback_context (agent.py lines 93-130). -/
def build_feedback_context (feedback : List FeedbackEntry) : String :=
  if feedback.isEmpty then "No previous feedback available."
  else
    let approved := context_approved feedback
    let rejected := context_rejected feedback
    String.intercalate "\n"
      (["Previous feedback summary: " ++ toString approved.length ++ " approved, "
          ++ toString rejected.length ++ " rejected alerts.",
        "\nRecent approved patterns:"]
        ++ (pyLastN 5 approved).map feedbackLine
        ++ ["\nRecent rejected patterns:"]
        ++ (pyLastN 5 rejected).map feedbackLine)

/-- The similar_feedback list comprehension of
adjust_confidence_with_feedback (agent.py lines 304-307): the entries whose
alert_type equals the type of the alert. -/
def similar_feedback (alert_type : String) (feedback : List FeedbackEntry) :
    List FeedbackEntry :=
  feedback.filter (fun f => f.alert_type == some alert_type)

/-- The approved_count sum of agent.py line 313. -/
def approved_count (alert_type : String) (feedback : List FeedbackEntry) : ℕ :=
  ((similar_feedback alert_type feedback).filter
    (fun f => f.action == some "approved")).length

/-- AIAgent.adjust_confidence_with_feedback (agent.py lines 283-329).  The
result is Except because the addition of agent.py line 318 raises TypeError
when the confidence field of the analysis is a string or None. -/
def adjust_confidence_with_feedback (alert : AgentAlert) (analysis : Analysis)
    (feedback : List FeedbackEntry) : Except String Analysis :=
  if feedback.isEmpty then .ok analysis
  else
    let similar := similar_feedback alert.type feedback
    if similar.isEmpty then .ok analysis
    else
      let approval_rate : ℚ :=
        (approved_count alert.type feedback : ℚ) / (similar.length : ℚ)
      match pyAddJQ (analysis.confidence.getD (.num (7/10))) approval_rate with
      | .error e => .error e
      | .ok s =>
        .ok { analysis with
              confidence := some (.num (round2 (s / 2)))
              feedback_adjusted := true }

/-- AIAgent.analyze_alert (agent.py lines 179-252).  The composition of the
LLM call and the JSON extraction is modelled by the oracle argument: none
stands for an API failure, an empty response or a JSONDecodeError, all of
which take the fallback branch; some a is the successfully parsed response
object.  The prompt strings (which embed build_feedback_context) only
influence the oracle and are absorbed by it. -/
def analyze_alert (provider_response : Option Analysis) (alert : AgentAlert) :
    Analysis :=
  match provider_response with
  | none => fallback_analysis alert
  | some a => a

/-- A triaged alert record (agent.py lines 358-363). -/
structure TriagedAlert where
  alert_id : String
  ai_analysis : Analysis
  original_alert : AgentAlert
  triage_timestamp : String
  deriving DecidableEq, Repr

/-- AIAgent.triage_alerts (agent.py lines 331-368): one record appended per
alert; an exception escaping adjust_confidence_with_feedback aborts the
whole loop (there is no per-alert handler), modelled by the Except monad.
now stands for the utcnow timestamp. -/
def triage_alerts (provider : AgentAlert → Option Analysis) (now : String)
    (alerts : List AgentAlert) (feedback : List FeedbackEntry) :
    Except String (List TriagedAlert) :=
  alerts.foldlM
    (fun acc alert => do
      let analysis := analyze_alert (provider alert) alert
      let analysis ← adjust_confidence_with_feedback alert analysis feedback
      pure (acc ++ [{ alert_id := alert.id
                      ai_analysis := analysis
                      original_alert := alert
                      triage_timestamp := now }]))
    []

/-! ### Feedback submission endpoint (submit_feedback, src/web/app.py lines
168-262) -/

/-- The JSON payload of a feedback POST as the handler reads it via .get;
none for the whole request models a missing or empty body (the falsy check
of app.py line 187). -/
structure FeedbackRequest where
  alert_id : Option String
  action : Option String
  reason : Option String
  alert_type : Option String
  analyst : Option String
  deriving DecidableEq, Repr

/-- The loop of app.py lines 219-223: the type of the first triaged alert
with the given alert_id. -/
def lookupAlertType (triaged : List TriagedAlert) (alert_id : String) :
    Option String :=
  match triaged.find? (fun t => t.alert_id == alert_id) with
  | some t => some t.original_alert.type
  | none => none

/-- Python x or "unknown" over an optional string (app.py line 233). -/
def orUnknown : Option String → String
  | none => "unknown"
  | some s => if s = "" then "unknown" else s

/-- submit_feedback (app.py lines 168-262) as a transition on the stored
feedback list: returns the HTTP status and the new store.  Persistence of
the store (save_json_file) is the state transition itself; now stands for
the utcnow timestamp. -/
def submit_feedback (triaged : List TriagedAlert)
    (feedback_store : List FeedbackEntry) (req : Option FeedbackRequest)
    (now : String) : ℕ × List FeedbackEntry :=
  match req with
  | none => (400, feedback_store)
  | some data =>
    let reason := pyStrip (data.reason.getD "")
    if data.alert_id = none ∨ data.alert_id = some "" then (400, feedback_store)
    else if ¬(data.action = some "approved" ∨ data.action = some "rejected") then
      (400, feedback_store)
    else if reason = "" then (400, feedback_store)
    else
      let aid := data.alert_id.getD ""
      let atype0 := data.alert_type
      let atype := if atype0 = none ∨ atype0 = some "" then
                     lookupAlertType triaged aid
                   else atype0
      let entry : FeedbackEntry :=
        { alert_id := aid
          action := data.action
          reason := some reason
          alert_type := some (orUnknown atype)
          timestamp := now
          analyst := data.analyst.getD "anonymous" }
      (200, feedback_store ++ [entry])

/-! ### The spec-side signed-step adjustment (refinement comparison only)

These definitions are written from the wording of the specification, not
from the source, for comparison against adjust_confidence_with_feedback. -/

/-- Modelled from the spec: step and cap constants of the signed-step
confidence adjustment. -/
def spec_step_up : ℚ := 3/100

/-- Modelled from the spec: approval cap. -/
def spec_cap_up : ℚ := 15/100

/-- Modelled from the spec: rejection step. -/
def spec_step_down : ℚ := 4/100

/-- Modelled from the spec: rejection cap. -/
def spec_cap_down : ℚ := 20/100

/-- Modelled from the spec: per-type approvals (entries of the type whose
action is approved). -/
def spec_approvals (t : String) (feedback : List FeedbackEntry) : ℕ :=
  (feedback.filter
    (fun f => f.alert_type == some t && f.action == some "approved")).length

/-- Modelled from the spec: per-type rejections. -/
def spec_rejections (t : String) (feedback : List FeedbackEntry) : ℕ :=
  (feedback.filter
    (fun f => f.alert_type == some t && f.action == some "rejected")).length

/-- Modelled from the spec: the signed adjustment. -/
def spec_adjustment (approvals rejections : ℕ) : ℚ :=
  if rejections < approvals then min spec_cap_up (approvals * spec_step_up)
  else if approvals < rejections then -(min spec_cap_down (rejections * spec_step_down))
  else 0

/-- Modelled from the spec: base confidence plus the signed adjustment (the
clamp is the subject of a separate claim and is omitted here, as in the
claim under test). -/
def spec_final_confidence (base : ℚ) (approvals rejections : ℕ) : ℚ :=
  base + spec_adjustment approvals rejections

/-! ### Concrete example values used by counterexamples and witnesses -/

/-- A high-severity open_port alert as the agent sees it. -/
def aHigh : AgentAlert :=
  { id := "a1", type := "open_port", severity := some "high"
    description := some "Unauthorized port 8080 open on scada1"
    suggested_actions := ["Investigate", "Verify service", "Block port", "Review rules"] }

/-- An approved feedback entry for alert type open_port. -/
def fbApproved : FeedbackEntry :=
  { alert_id := "a1", alert_type := some "open_port", action := some "approved"
    reason := some "true positive", timestamp := "2025-01-01T00:00:00Z"
    analyst := "alice" }

/-- A rejected feedback entry for alert type open_port. -/
def fbRejected : FeedbackEntry :=
  { alert_id := "a1", alert_type := some "open_port", action := some "rejected"
    reason := some "false positive", timestamp := "2025-01-02T00:00:00Z"
    analyst := "bob" }

/-- A feedback entry for alert type open_port whose action is neither
approved nor rejected. -/
def fbDeferred : FeedbackEntry :=
  { alert_id := "a1", alert_type := some "open_port", action := some "deferred"
    reason := some "needs review", timestamp := "2025-01-03T00:00:00Z"
    analyst := "carol" }

/-- A parsed LLM response whose confidence field is the string "high". -/
def analysisStrConf : Analysis :=
  { risk_score := .num 7
    risk_justification := "plausible"
    threat_analysis := "t", operational_impact := "o"
    remediation_steps := ["isolate"]
    confidence := some (.str "high")
    feedback_adjusted := false }

/-- A parsed LLM response whose confidence field is the number 0. -/
def analysisZeroConf : Analysis :=
  { risk_score := .num 5
    risk_justification := "j"
    threat_analysis := "t", operational_impact := "o"
    remediation_steps := []
    confidence := some (.num 0)
    feedback_adjusted := false }

/-- Two authentication events of one user one hour apart. -/
def authA : AuthEvent :=
  { user := "u1", timestamp := 0, lat := 30, lon := -97
    city := "Austin", country := "USA", source_ip := "10.0.0.1" }

/-- The later authentication event, 3600 seconds after authA. -/
def authB : AuthEvent :=
  { user := "u1", timestamp := 3600, lat := 40, lon := -74
    city := "New York", country := "USA", source_ip := "10.0.0.2" }

/-- A host record whose last patch is n days before time zero. -/
def hostDaysAgo (n : ℤ) : HostRecord :=
  { hostname := "scada1", ip := "10.0.1.5", os := "Ubuntu 20.04"
    last_patch_date := -(n * 86400 : ℤ)
    critical_apps := "SCADA Manager", location := "Plant A"
    criticality := "critical" }

/-- A firewall record (detect.py schema) allowing traffic to the given port
on host scada1, from the given source. -/
def fwAllow (port : ℤ) (src : String) : FirewallRecord :=
  { timestamp := "2025-01-01T00:00:00", hostname := "scada1"
    dest_port := port, source_ip := src, action := "ALLOW" }

/-- A firewall record (rules_engine.py schema) allowing traffic to the given
port on destination 10.0.1.10, from the given source. -/
def fwAllowRE (port : ℤ) (src : String) : FirewallLogRE :=
  { timestamp := "2025-01-01T00:00:00", src_ip := src, dst_ip := "10.0.1.10"
    dst_port := port, protocol := "TCP", bytes := 1500, action := "ALLOW" }

/-- A valid feedback request with surrounding whitespace in its reason. -/
def reqGood : FeedbackRequest :=
  { alert_id := some "a1", action := some "approved"
    reason := some "  good catch  ", alert_type := none, analyst := none }

/-! ## Helper lemmas -/

theorem le_roundHalfEven {q : ℚ} {n : ℤ} (h : (n : ℚ) ≤ q) : n ≤ roundHalfEven q := by
  have hf : n ≤ ⌊q⌋ := Int.le_floor.mpr h
  unfold roundHalfEven
  split_ifs <;> omega

theorem roundHalfEven_le {q : ℚ} {n : ℤ} (h : q ≤ (n : ℚ)) : roundHalfEven q ≤ n := by
  have hf : ⌊q⌋ ≤ n := by
    have := Int.floor_le_floor h
    simpa using this
  unfold roundHalfEven
  split_ifs with h1 h2 h3
  · exact hf
  · -- the fractional part exceeds one half, so the floor is strictly below n
    rcases lt_or_eq_of_le hf with hlt | heq
    · omega
    · exfalso
      have hq : q ≤ (⌊q⌋ : ℚ) := by rw [heq]; exact_mod_cast h
      have := Int.floor_le q
      linarith
  · exact hf
  · rcases lt_or_eq_of_le hf with hlt | heq
    · omega
    · exfalso
      have hq : q ≤ (⌊q⌋ : ℚ) := by rw [heq]; exact_mod_cast h
      push_neg at h1
      linarith

theorem round2_nonneg {x : ℚ} (h0 : 0 ≤ x) : 0 ≤ round2 x := by
  unfold round2
  have : (0 : ℤ) ≤ roundHalfEven (x * 100) := le_roundHalfEven (by push_cast; linarith)
  positivity

theorem round2_le_one {x : ℚ} (h1 : x ≤ 1) : round2 x ≤ 1 := by
  unfold round2
  have h : roundHalfEven (x * 100) ≤ (100 : ℤ) := roundHalfEven_le (by push_cast; linarith)
  rw [div_le_one (by norm_num)]
  exact_mod_cast h

/-- Characterization of adjust_confidence_with_feedback when the confidence
field of the analysis is numeric: the empty-history early return and the
empty-similar-feedback return collapse into one condition, and otherwise the
new confidence is the average of the old one and the per-type approval rate,
rounded to two decimals, with the feedback_adjusted flag set. -/
theorem adjust_confidence_eq (alert : AgentAlert) (analysis : Analysis)
    (feedback : List FeedbackEntry) (c : ℚ)
    (hc : analysis.confidence = some (.num c)) :
    adjust_confidence_with_feedback alert analysis feedback =
      .ok (if similar_feedback alert.type feedback = [] then analysis
           else { analysis with
                  confidence := some (.num (round2 ((c +
                    (approved_count alert.type feedback : ℚ) /
                    ((similar_feedback alert.type feedback).length : ℚ)) / 2)))
                  feedback_adjusted := true }) := by
  unfold adjust_confidence_with_feedback
  cases feedback with
  | nil => simp [similar_feedback]
  | cons f fs =>
    simp only [List.isEmpty_cons, Bool.false_eq_true, if_false]
    rcases h : similar_feedback alert.type (f :: fs) with _ | ⟨x, xs⟩
    · simp [h]
    · simp only [List.isEmpty_cons, Bool.false_eq_true, if_false, hc,
        Option.getD_some, pyAddJQ]
      rw [if_neg (by simp)]

/-! ## Claim C1 -/

/-- C1, counterexample: the claimed signed-step adjustment fails on the code.
For a high-severity open_port alert whose history holds one approved entry of
that type, the spec algorithm yields base 0.6 plus min(0.15, 1 times 0.03) =
0.63, but adjust_confidence_with_feedback averages the base with the approval
rate 1.0 and produces 0.8. -/
theorem c1_counterexample :
    spec_approvals "open_port" [fbApproved] = 1 ∧
    spec_rejections "open_port" [fbApproved] = 0 ∧
    (fallback_analysis aHigh).confidence = some (.num (6/10)) ∧
    spec_final_confidence (6/10) 1 0 = 63/100 ∧
    (adjust_confidence_with_feedback aHigh (fallback_analysis aHigh)
        [fbApproved]).toOption.map (fun r => r.confidence)
      = some (some (.num (8/10))) ∧
    (8/10 : ℚ) ≠ 63/100 := by
  refine ⟨by decide, by decide, rfl, ?_, ?_, by norm_num⟩
  · norm_num [spec_final_confidence, spec_adjustment, spec_cap_up, spec_step_up]
  · simp [adjust_confidence_with_feedback, similar_feedback, approved_count,
      fallback_analysis, aHigh, fbApproved, pyAddJQ, Except.toOption]
    norm_num [round2, roundHalfEven]

/-- C1, amended: for an analysis with numeric confidence c, the adjustment
is not the signed-step algorithm: when no feedback entry carries the type of
the alert the analysis is returned unchanged, and otherwise the final
confidence is the two-decimal rounding of the average of c and the per-type
approval rate approved_count / |similar_feedback| (every same-type entry,
whatever its action, counts in the denominator), with the flag set. -/
theorem c1_adjust_confidence_averages (alert : AgentAlert) (analysis : Analysis)
    (feedback : List FeedbackEntry) (c : ℚ)
    (hc : analysis.confidence = some (.num c)) :
    adjust_confidence_with_feedback alert analysis feedback =
      .ok (if similar_feedback alert.type feedback = [] then analysis
           else { analysis with
                  confidence := some (.num (round2 ((c +
                    (approved_count alert.type feedback : ℚ) /
                    ((similar_feedback alert.type feedback).length : ℚ)) / 2)))
                  feedback_adjusted := true }) :=
  adjust_confidence_eq alert analysis feedback c hc

/-- C1, witness: the amended characterization applied to the concrete
counterexample inputs. -/
theorem c1_witness :
    adjust_confidence_with_feedback aHigh (fallback_analysis aHigh) [fbApproved] =
      .ok (if similar_feedback aHigh.type [fbApproved] = []
           then fallback_analysis aHigh
           else { fallback_analysis aHigh with
                  confidence := some (.num (round2 ((6/10 +
                    (approved_count aHigh.type [fbApproved] : ℚ) /
                    ((similar_feedback aHigh.type [fbApproved]).length : ℚ)) / 2)))
                  feedback_adjusted := true }) :=
  c1_adjust_confidence_averages aHigh (fallback_analysis aHigh) [fbApproved]
    (6/10) rfl

/-! ## Claim C6 -/

/-- C6, counterexample: the baseline pair for severity high is (7, 0.6) in
the code, not the (8, 0.70) of the claimed table. -/
theorem c6_counterexample :
    aHigh.severity = some "high" ∧
    (fallback_analysis aHigh).risk_score = .num 7 ∧
    (fallback_analysis aHigh).confidence = some (.num (6/10)) ∧
    (7 : ℚ) ≠ 8 ∧ (6/10 : ℚ) ≠ 7/10 := by
  refine ⟨rfl, ?_, rfl, by norm_num, by norm_num⟩
  simp [fallback_analysis, aHigh, severity_scores]

/-- C6, amended: the baseline table of _fallback_analysis maps severity
critical to 9, high to 7, medium to 5 and low to 3, a missing severity to
the medium row, and any unrecognized severity to the default 5; the baseline
confidence is 0.6 for every severity. -/
theorem c6_fallback_table (alert : AgentAlert) :
    (fallback_analysis alert).risk_score =
      .num (severity_scores (alert.severity.getD "medium") : ℚ) ∧
    (fallback_analysis alert).confidence = some (.num (6/10)) ∧
    severity_scores "critical" = 9 ∧ severity_scores "high" = 7 ∧
    severity_scores "medium" = 5 ∧ severity_scores "low" = 3 ∧
    (∀ s, s ≠ "critical" → s ≠ "high" → s ≠ "medium" → s ≠ "low" →
      severity_scores s = 5) := by
  refine ⟨rfl, rfl, by decide, by decide, by decide, by decide, ?_⟩
  intro s h1 h2 h3 h4
  simp [severity_scores, h1, h2, h3, h4]

/-- C6, witness: the table theorem applied to the concrete high-severity
alert, and the default row instantiated at an unrecognized severity. -/
theorem c6_witness :
    (fallback_analysis aHigh).risk_score =
      .num (severity_scores (aHigh.severity.getD "medium") : ℚ) ∧
    severity_scores "urgent" = 5 := by
  have h := c6_fallback_table aHigh
  exact ⟨h.1, h.2.2.2.2.2.2 "urgent" (by decide) (by decide) (by decide) (by decide)⟩

/-! ## Claim C7 -/

/-- C7, counterexample: a history holding one same-type entry whose action is
deferred has approvals + rejections = 0, yet the triage record built with the
deterministic fallback gets feedback_adjusted = true and its confidence
changed from 0.6 to 0.3. -/
theorem c7_counterexample :
    spec_approvals "open_port" [fbDeferred] + spec_rejections "open_port" [fbDeferred] = 0 ∧
    (triage_alerts (fun _ => none) "now" [aHigh] [fbDeferred]).toOption.map
      (fun rs => rs.map (fun r => (r.ai_analysis.feedback_adjusted, r.ai_analysis.confidence)))
      = some [(true, some (.num (3/10)))] ∧
    (fallback_analysis aHigh).confidence = some (.num (6/10)) ∧
    (3/10 : ℚ) ≠ 6/10 ∧ true ≠ false := by
  refine ⟨by decide, ?_, rfl, by norm_num, by decide⟩
  simp [triage_alerts, analyze_alert, adjust_confidence_with_feedback,
    similar_feedback, approved_count, fallback_analysis, aHigh, fbDeferred,
    pyAddJQ, Except.toOption]
  norm_num [round2, roundHalfEven]

/-- C7, amended: starting from an analysis with numeric confidence and a
cleared flag (as the fallback produces), feedback_adjusted ends up true iff
at least one feedback entry carries the type of the alert, whatever its
action; when no entry does, the analysis (confidence included) is returned
unchanged. -/
theorem c7_flag_iff_type_feedback (alert : AgentAlert) (analysis : Analysis)
    (feedback : List FeedbackEntry) (c : ℚ)
    (hc : analysis.confidence = some (.num c))
    (hflag : analysis.feedback_adjusted = false) :
    ∃ r, adjust_confidence_with_feedback alert analysis feedback = .ok r ∧
      (r.feedback_adjusted = true ↔ similar_feedback alert.type feedback ≠ []) ∧
      (similar_feedback alert.type feedback = [] → r = analysis) := by
  rw [adjust_confidence_eq alert analysis feedback c hc]
  by_cases hsim : similar_feedback alert.type feedback = []
  · refine ⟨analysis, by rw [if_pos hsim], ?_, fun _ => rfl⟩
    simp [hflag, hsim]
  · refine ⟨_, by rw [if_neg hsim], ?_, fun h => absurd h hsim⟩
    simpa using hsim

/-- C7, witness: the amended flag characterization applied to the concrete
deferred-action history. -/
theorem c7_witness :
    ∃ r, adjust_confidence_with_feedback aHigh (fallback_analysis aHigh)
        [fbDeferred] = .ok r ∧
      (r.feedback_adjusted = true ↔ similar_feedback aHigh.type [fbDeferred] ≠ []) ∧
      (similar_feedback aHigh.type [fbDeferred] = [] → r = fallback_analysis aHigh) :=
  c7_flag_iff_type_feedback aHigh (fallback_analysis aHigh) [fbDeferred]
    (6/10) rfl rfl

/-! ## Claim C8 -/

/-- C8, counterexample: no clamp to [0.05, 0.99] is applied.  A parsed
response carrying confidence 0 together with one same-type rejected entry
yields a triage record whose confidence is 0, below the claimed lower bound
0.05. -/
theorem c8_counterexample :
    (triage_alerts (fun _ => some analysisZeroConf) "now" [aHigh]
        [fbRejected]).toOption.map
      (fun rs => rs.map (fun r => r.ai_analysis.confidence))
      = some [some (.num 0)] ∧
    ¬((5/100 : ℚ) ≤ 0) := by
  refine ⟨?_, by norm_num⟩
  simp [triage_alerts, analyze_alert, adjust_confidence_with_feedback,
    similar_feedback, approved_count, analysisZeroConf, aHigh, fbRejected,
    pyAddJQ, Except.toOption]
  norm_num [round2, roundHalfEven]

/-- C8, amended: the adjustment applies no clamp; what does hold is that for
a numeric starting confidence c in [0, 1] the adjusted confidence stays in
[0, 1], because it is the rounded average of c and an approval rate that lies
in [0, 1]. -/
theorem c8_confidence_bounds (alert : AgentAlert) (analysis : Analysis)
    (feedback : List FeedbackEntry) (c : ℚ)
    (hc : analysis.confidence = some (.num c)) (h0 : 0 ≤ c) (h1 : c ≤ 1) :
    ∃ r q, adjust_confidence_with_feedback alert analysis feedback = .ok r ∧
      r.confidence = some (.num q) ∧ 0 ≤ q ∧ q ≤ 1 := by
  rw [adjust_confidence_eq alert analysis feedback c hc]
  by_cases hsim : similar_feedback alert.type feedback = []
  · exact ⟨analysis, c, by rw [if_pos hsim], hc, h0, h1⟩
  · have hlen : 0 < (similar_feedback alert.type feedback).length :=
      List.length_pos.mpr hsim
    have hlenQ : (0 : ℚ) < ((similar_feedback alert.type feedback).length : ℚ) := by
      exact_mod_cast hlen
    have hrate0 : (0 : ℚ) ≤
        (approved_count alert.type feedback : ℚ) /
          ((similar_feedback alert.type feedback).length : ℚ) :=
      div_nonneg (by positivity) (le_of_lt hlenQ)
    have hcount : approved_count alert.type feedback ≤
        (similar_feedback alert.type feedback).length :=
      List.length_filter_le _ _
    have hrate1 : (approved_count alert.type feedback : ℚ) /
        ((similar_feedback alert.type feedback).length : ℚ) ≤ 1 := by
      rw [div_le_one hlenQ]
      exact_mod_cast hcount
    refine ⟨{ analysis with
              confidence := some (.num (round2 ((c +
                (approved_count alert.type feedback : ℚ) /
                ((similar_feedback alert.type feedback).length : ℚ)) / 2)))
              feedback_adjusted := true },
            round2 ((c + (approved_count alert.type feedback : ℚ) /
              ((similar_feedback alert.type feedback).length : ℚ)) / 2),
            by rw [if_neg hsim], rfl, ?_, ?_⟩
    · exact round2_nonneg (by linarith)
    · exact round2_le_one (by linarith)

/-- C8, witness: the bounds applied to the concrete approved-entry history
starting from the fallback confidence 0.6. -/
theorem c8_witness :
    ∃ r q, adjust_confidence_with_feedback aHigh (fallback_analysis aHigh)
        [fbApproved] = .ok r ∧
      r.confidence = some (.num q) ∧ 0 ≤ q ∧ q ≤ 1 :=
  c8_confidence_bounds aHigh (fallback_analysis aHigh) [fbApproved]
    (6/10) rfl (by norm_num) (by norm_num)

/-! ## Claim C9 -/

/-- C9, counterexample: the aggregation feeding the prompt context is not
order-independent.  Two permutations of the same 21-entry history (one
rejected entry and twenty approved ones) produce different approved/rejected
counts, because build_feedback_context only looks at the last 20 entries. -/
theorem c9_counterexample :
    List.Perm (fbRejected :: List.replicate 20 fbApproved)
      (List.replicate 20 fbApproved ++ [fbRejected]) ∧
    ((context_approved (fbRejected :: List.replicate 20 fbApproved)).length,
     (context_rejected (fbRejected :: List.replicate 20 fbApproved)).length) = (20, 0) ∧
    ((context_approved (List.replicate 20 fbApproved ++ [fbRejected])).length,
     (context_rejected (List.replicate 20 fbApproved ++ [fbRejected])).length) = (19, 1) ∧
    ((20, 0) : ℕ × ℕ) ≠ (19, 1) := by
  exact ⟨(List.perm_append_singleton _ _).symm, by decide, by decide, by decide⟩

/-- C9, amended: the per-type stats actually used for the confidence
adjustment (the same-type entry count and the approved count over the full
history) are permutation-invariant, and recomputing them on the same history
is trivially idempotent; but an entry with an unrecognized action still
enters the same-type count (the approval-rate denominator) while never
entering the approved count, and the last-20 context summary is the
order-dependent part. -/
theorem c9_stats_perm_invariant (t : String) (fb fb' : List FeedbackEntry)
    (hp : List.Perm fb fb') (e : FeedbackEntry) (ht : e.alert_type = some t)
    (ha : e.action ≠ some "approved") :
    (similar_feedback t fb).length = (similar_feedback t fb').length ∧
    approved_count t fb = approved_count t fb' ∧
    (similar_feedback t (e :: fb)).length = (similar_feedback t fb).length + 1 ∧
    approved_count t (e :: fb) = approved_count t fb := by
  refine ⟨?_, ?_, ?_, ?_⟩
  · exact (hp.filter _).length_eq
  · exact ((hp.filter _).filter _).length_eq
  · simp [similar_feedback, List.filter_cons, ht]
  · simp [approved_count, similar_feedback, List.filter_cons, ht, ha]

/-- C9, witness: permutation invariance applied to a concrete two-entry
history and its swap, with the deferred entry as the uncounted action. -/
theorem c9_witness :
    (similar_feedback "open_port" [fbApproved, fbRejected]).length =
      (similar_feedback "open_port" [fbRejected, fbApproved]).length ∧
    approved_count "open_port" [fbApproved, fbRejected] =
      approved_count "open_port" [fbRejected, fbApproved] ∧
    (similar_feedback "open_port" (fbDeferred :: [fbApproved, fbRejected])).length =
      (similar_feedback "open_port" [fbApproved, fbRejected]).length + 1 ∧
    approved_count "open_port" (fbDeferred :: [fbApproved, fbRejected]) =
      approved_count "open_port" [fbApproved, fbRejected] :=
  c9_stats_perm_invariant "open_port" [fbApproved, fbRejected]
    [fbRejected, fbApproved] (List.Perm.swap _ _ _) fbDeferred rfl (by decide)

/-! ## Claim C2 -/

/-- C2: triage is not isolated against every provider behaviour.  When the
provider returns a parseable JSON object whose confidence field is the
string "high" and the history holds one feedback entry of the alert type,
the addition inside adjust_confidence_with_feedback raises TypeError and the
whole run aborts: no triage record is produced for the alert at all, against
the one-record-per-alert requirement. -/
theorem c2_string_confidence_aborts_triage :
    triage_alerts (fun _ => some analysisStrConf) "now" [aHigh] [fbApproved]
      = .error "TypeError" ∧
    ∀ rs : List TriagedAlert,
      triage_alerts (fun _ => some analysisStrConf) "now" [aHigh] [fbApproved]
        ≠ .ok rs := by
  have h : triage_alerts (fun _ => some analysisStrConf) "now" [aHigh] [fbApproved]
      = .error "TypeError" := by
    simp [triage_alerts, analyze_alert, adjust_confidence_with_feedback,
      similar_feedback, approved_count, analysisStrConf, aHigh, fbApproved, pyAddJQ]
  refine ⟨h, fun rs hrs => ?_⟩
  rw [h] at hrs
  exact Except.noConfusion hrs

/-! ## Claim C3 -/

/-- C3, counterexample: at an implied speed of exactly 1000 mph (exactly
twice the 500 mph threshold) the detector emits a high alert, not the
critical one the claim requires for speeds at or above 2x the threshold. -/
theorem c3_counterexample :
    (detect_impossible_travel_user (fun _ _ => (1000 : ℚ)) [authA, authB]).map
      (fun a => a.severity) = ["high"] ∧
    travelElapsedHours authA authB = 1 ∧
    2 * impossible_travel_mph ≤ (1000 : ℚ) / travelElapsedHours authA authB ∧
    ("high" : String) ≠ "critical" := by
  refine ⟨?_, ?_, ?_, by decide⟩
  · norm_num [detect_impossible_travel_user, consecutivePairs, travelAlertForPair,
      travelElapsedHours, impossible_travel_mph, authA, authB, List.filterMap_cons]
  · norm_num [travelElapsedHours, authA, authB]
  · norm_num [travelElapsedHours, impossible_travel_mph, authA, authB]

/-- C3, amended: over the events of one principal in ascending timestamp order, a
consecutive pair yields an alert exactly when its elapsed time is positive
and the implied speed strictly exceeds the 500 mph threshold; the severity
is critical exactly when the speed strictly exceeds 1000 mph (the boundary
speed of exactly 1000 mph is high, not critical), and the per-user detector
is precisely this scan over consecutive pairs. -/
theorem c3_travel_characterization (dist : ℚ × ℚ → ℚ × ℚ → ℚ) (c n : AuthEvent) :
    ((travelAlertForPair dist c n).isSome ↔
      (0 < travelElapsedHours c n ∧
       impossible_travel_mph <
         dist (c.lat, c.lon) (n.lat, n.lon) / travelElapsedHours c n)) ∧
    (∀ a, travelAlertForPair dist c n = some a →
      a.severity =
        if 1000 < dist (c.lat, c.lon) (n.lat, n.lon) / travelElapsedHours c n
        then "critical" else "high") ∧
    (∀ events, detect_impossible_travel_user dist events =
      (consecutivePairs events).filterMap
        (fun p => travelAlertForPair dist p.1 p.2)) := by
  by_cases h1 : 0 < travelElapsedHours c n
  · by_cases h2 : impossible_travel_mph <
        dist (c.lat, c.lon) (n.lat, n.lon) / travelElapsedHours c n
    · refine ⟨by simp [travelAlertForPair, h1, h2], ?_, fun _ => rfl⟩
      intro a ha
      have hval : travelAlertForPair dist c n = some
          { severity := if 1000 < dist (c.lat, c.lon) (n.lat, n.lon) /
                travelElapsedHours c n then "critical" else "high"
            description := "Impossible travel detected for " ++ c.user
            user := c.user
            location1 := c.city ++ ", " ++ c.country
            location2 := n.city ++ ", " ++ n.country
            timestamp1 := c.timestamp
            timestamp2 := n.timestamp
            distance_miles := round2 (dist (c.lat, c.lon) (n.lat, n.lon))
            time_hours := round2 (travelElapsedHours c n)
            speed_mph := round2 (dist (c.lat, c.lon) (n.lat, n.lon) /
              travelElapsedHours c n)
            ip1 := c.source_ip
            ip2 := n.source_ip } := by
        simp [travelAlertForPair, h1, h2]
      rw [hval] at ha
      obtain rfl := Option.some.inj ha
      rfl
    · refine ⟨by simp [travelAlertForPair, h1, h2], ?_, fun _ => rfl⟩
      intro a ha
      have : travelAlertForPair dist c n = none := by
        simp [travelAlertForPair, h1, h2]
      rw [this] at ha
      exact Option.noConfusion ha
  · refine ⟨by simp [travelAlertForPair, h1], ?_, fun _ => rfl⟩
    intro a ha
    have : travelAlertForPair dist c n = none := by
      simp [travelAlertForPair, h1]
    rw [this] at ha
    exact Option.noConfusion ha

/-- C3, witness: the characterization applied to a concrete pair one hour
apart under a constant 2000-mile distance oracle. -/
theorem c3_witness :
    (travelAlertForPair (fun _ _ => (2000 : ℚ)) authA authB).isSome ↔
      (0 < travelElapsedHours authA authB ∧
       impossible_travel_mph < (2000 : ℚ) / travelElapsedHours authA authB) :=
  (c3_travel_characterization (fun _ _ => (2000 : ℚ)) authA authB).1

/-! ## Claim C5 -/

/-- C5: the patch-drift detector emits nothing for hosts patched at most 30
days ago, a critical alert above 60 days and a high alert for 31 to 60
days, and it is the pointwise scan of the inventory. -/
theorem c5_patch_drift_severity (current_time : ℚ) (hosts : List HostRecord)
    (h : HostRecord) :
    detect_patch_drift current_time hosts =
      hosts.filterMap (patchAlertForHost current_time) ∧
    (daysSincePatch current_time h ≤ 30 → patchAlertForHost current_time h = none) ∧
    (∀ a, patchAlertForHost current_time h = some a →
      30 < daysSincePatch current_time h ∧
      a.days_since_patch = daysSincePatch current_time h ∧
      a.severity = if 60 < daysSincePatch current_time h then "critical" else "high") ∧
    (30 < daysSincePatch current_time h →
      (patchAlertForHost current_time h).isSome) := by
  refine ⟨rfl, ?_, ?_, ?_⟩
  · intro hle
    have h60 : ¬ patch_drift_critical_days < daysSincePatch current_time h := by
      simp only [patch_drift_critical_days]; omega
    have h30 : ¬ patch_drift_high_days < daysSincePatch current_time h := by
      simp only [patch_drift_high_days]; omega
    simp [patchAlertForHost, h60, h30]
  · intro a ha
    by_cases h60 : patch_drift_critical_days < daysSincePatch current_time h
    · have hval : patchAlertForHost current_time h = some
          { severity := "critical"
            description := "Critical patch drift detected on " ++ h.hostname
            hostname := h.hostname, ip := h.ip, os := h.os
            last_patch_date := h.last_patch_date
            days_since_patch := daysSincePatch current_time h
            critical_apps := h.critical_apps, location := h.location } := by
        simp [patchAlertForHost, h60]
      rw [hval] at ha
      obtain rfl := Option.some.inj ha
      have h60' : (60 : ℤ) < daysSincePatch current_time h := by
        simpa [patch_drift_critical_days] using h60
      exact ⟨by omega, rfl, by rw [if_pos h60']⟩
    · by_cases h30 : patch_drift_high_days < daysSincePatch current_time h
      · have hval : patchAlertForHost current_time h = some
            { severity := "high"
              description := "Critical patch drift detected on " ++ h.hostname
              hostname := h.hostname, ip := h.ip, os := h.os
              last_patch_date := h.last_patch_date
              days_since_patch := daysSincePatch current_time h
              critical_apps := h.critical_apps, location := h.location } := by
          simp [patchAlertForHost, h60, h30]
        rw [hval] at ha
        obtain rfl := Option.some.inj ha
        have h60' : ¬ (60 : ℤ) < daysSincePatch current_time h := by
          simpa [patch_drift_critical_days] using h60
        refine ⟨by simpa [patch_drift_high_days] using h30, rfl, by rw [if_neg h60']⟩
      · have : patchAlertForHost current_time h = none := by
          simp [patchAlertForHost, h60, h30]
        rw [this] at ha
        exact Option.noConfusion ha
  · intro h30
    by_cases h60 : patch_drift_critical_days < daysSincePatch current_time h
    · simp [patchAlertForHost, h60]
    · have h30' : patch_drift_high_days < daysSincePatch current_time h := by
        simp only [patch_drift_high_days]; omega
      simp [patchAlertForHost, h60, h30']

/-- C5, witness: a host patched 65 days ago yields a critical alert, one
patched 40 days ago a high alert, and one patched 10 days ago nothing, via
the severity theorem at those concrete inputs. -/
theorem c5_witness :
    (patchAlertForHost 0 (hostDaysAgo 65)).isSome ∧
    (patchAlertForHost 0 (hostDaysAgo 65)).map (fun a => a.severity) = some "critical" ∧
    (patchAlertForHost 0 (hostDaysAgo 40)).map (fun a => a.severity) = some "high" ∧
    patchAlertForHost 0 (hostDaysAgo 10) = none := by
  have d65 : daysSincePatch 0 (hostDaysAgo 65) = 65 := by
    norm_num [daysSincePatch, hostDaysAgo]
  have d40 : daysSincePatch 0 (hostDaysAgo 40) = 40 := by
    norm_num [daysSincePatch, hostDaysAgo]
  have d10 : daysSincePatch 0 (hostDaysAgo 10) = 10 := by
    norm_num [daysSincePatch, hostDaysAgo]
  refine ⟨(c5_patch_drift_severity 0 [] (hostDaysAgo 65)).2.2.2 (by omega), ?_, ?_, ?_⟩
  · rcases hs : patchAlertForHost 0 (hostDaysAgo 65) with _ | a
    · have := (c5_patch_drift_severity 0 [] (hostDaysAgo 65)).2.2.2 (by omega)
      rw [hs] at this
      simp at this
    · have := (c5_patch_drift_severity 0 [] (hostDaysAgo 65)).2.2.1 a hs
      simp [this.2.2, d65]
  · rcases hs : patchAlertForHost 0 (hostDaysAgo 40) with _ | a
    · have := (c5_patch_drift_severity 0 [] (hostDaysAgo 40)).2.2.2 (by omega)
      rw [hs] at this
      simp at this
    · have := (c5_patch_drift_severity 0 [] (hostDaysAgo 40)).2.2.1 a hs
      simp [this.2.2, d40]
  · exact (c5_patch_drift_severity 0 [] (hostDaysAgo 10)).2.1 (by omega)

/-! ## Deduplication lemmas for the port detectors -/

theorem mem_of_mem_dedupByKeyGo {key : α → β} [DecidableEq β] {seen : List β}
    {l : List α} {a : α} (h : a ∈ dedupByKeyGo key seen l) : a ∈ l := by
  induction l generalizing seen with
  | nil => cases h
  | cons x xs ih =>
    unfold dedupByKeyGo at h
    by_cases hx : key x ∈ seen
    · rw [if_pos hx] at h
      exact List.mem_cons_of_mem _ (ih h)
    · rw [if_neg hx] at h
      rcases List.mem_cons.mp h with rfl | h2
      · exact List.mem_cons_self _ _
      · exact List.mem_cons_of_mem _ (ih h2)

theorem dedupByKeyGo_countP (key : α → β) [DecidableEq β] (b : β)
    (seen : List β) (l : List α) :
    (dedupByKeyGo key seen l).countP (fun a => decide (key a = b)) =
      if b ∈ seen then 0
      else if l.any (fun a => decide (key a = b)) then 1 else 0 := by
  induction l generalizing seen with
  | nil => simp [dedupByKeyGo]
  | cons x xs ih =>
    unfold dedupByKeyGo
    by_cases hx : key x ∈ seen
    · rw [if_pos hx, ih]
      by_cases hb : b ∈ seen
      · simp [hb]
      · have hxb : ¬ key x = b := fun e => hb (e ▸ hx)
        simp [hb, hxb]
    · rw [if_neg hx, List.countP_cons, ih]
      by_cases hxb : key x = b
      · subst hxb
        simp [hx]
      · have hbx : ¬ b = key x := fun e => hxb e.symm
        simp [hxb, hbx, List.mem_cons]

theorem dedupByKey_countP (key : α → β) [DecidableEq β] (b : β) (l : List α) :
    (dedupByKey key l).countP (fun a => decide (key a = b)) =
      if l.any (fun a => decide (key a = b)) then 1 else 0 := by
  unfold dedupByKey
  rw [dedupByKeyGo_countP]
  simp

/-- The dedup count lemma specialized to detect.py port summaries. -/
theorem dedup_fw_countP (b : String × ℤ) (l : List FirewallRecord) :
    (dedupByKey (fun r : FirewallRecord => (r.hostname, r.dest_port)) l).countP
        (fun e => decide ((e.hostname, e.dest_port) = b)) =
      if l.any (fun e => decide ((e.hostname, e.dest_port) = b)) then 1 else 0 := by
  simpa using
    dedupByKey_countP (fun r : FirewallRecord => (r.hostname, r.dest_port)) b l

/-- The dedup count lemma specialized to rules_engine.py port alerts. -/
theorem dedup_re_countP (b : String × ℤ) (l : List PortAnomalyAlert) :
    (dedupByKey (fun a : PortAnomalyAlert => (a.host, a.destination_port)) l).countP
        (fun a => decide ((a.host, a.destination_port) = b)) =
      if l.any (fun a => decide ((a.host, a.destination_port) = b)) then 1 else 0 := by
  simpa using
    dedupByKey_countP (fun a : PortAnomalyAlert => (a.host, a.destination_port)) b l

/-- Alerts produced per summary row preserve the per-key count for a
non-whitelisted key. -/
theorem countP_filterMap_portAlert (h : String) (p : ℤ)
    (hp : p ∉ authorized_ports) (s : List FirewallRecord) :
    (s.filterMap portAlertForEntry).countP
        (fun a => decide ((a.hostname, a.port) = (h, p))) =
      s.countP (fun e => decide ((e.hostname, e.dest_port) = (h, p))) := by
  induction s with
  | nil => simp
  | cons e s ih =>
    cases hfe : portAlertForEntry e with
    | none =>
      have he : e.dest_port ∈ authorized_ports := by
        by_contra hc
        simp [portAlertForEntry, hc] at hfe
      have hpe : ¬((e.hostname, e.dest_port) = (h, p)) := by
        intro hval
        have hval2 : e.dest_port = p := by
          simpa using congrArg Prod.snd hval
        exact hp (hval2 ▸ he)
      rw [List.filterMap_cons, hfe, List.countP_cons, ih]
      simp [hpe]
    | some a =>
      have hdest : e.dest_port ∉ authorized_ports := by
        intro hc
        simp [portAlertForEntry, hc] at hfe
      have hfe2 := hfe
      unfold portAlertForEntry at hfe2
      rw [if_neg hdest] at hfe2
      obtain rfl := Option.some.inj hfe2
      rw [List.filterMap_cons, hfe, List.countP_cons, List.countP_cons, ih]

/-! ## Claim C4 -/

/-- C4, counterexample: port 3389 is on the DetectionEngine whitelist, so
five separate allowed traffic records to (scada1, 3389) produce zero alerts,
not the single high-severity alert the claim requires. -/
theorem c4_counterexample :
    (3389 : ℤ) ∈ authorized_ports ∧
    detect_open_ports [fwAllow 3389 "a", fwAllow 3389 "b", fwAllow 3389 "c",
      fwAllow 3389 "d", fwAllow 3389 "e"] = [] := by
  exact ⟨by decide, by decide⟩

/-- C4, amended: in detect_open_ports the whitelist contains 3389, so no
alert is ever emitted for it; for any port off the whitelist (such as 23,
which is also in the risky set that makes severity high), any number of
allowed records to one (hostname, port) pair collapses to exactly one alert,
with severity high exactly for the risky-port set.  The legacy
detect_open_port_anomalies, whose whitelist omits 3389, emits exactly one
HIGH alert per (destination, 3389) pair however many allowed records repeat
it. -/
theorem c4_open_port_dedup :
    (∀ (logs : List FirewallRecord) (h : String) (p : ℤ),
        p ∉ authorized_ports →
        (∃ l, l ∈ logs ∧ l.action = "ALLOW" ∧ l.hostname = h ∧ l.dest_port = p) →
        (detect_open_ports logs).countP
          (fun a => decide ((a.hostname, a.port) = (h, p))) = 1) ∧
    (∀ (logs : List FirewallRecord) (a : PortAlert), a ∈ detect_open_ports logs →
        a.port ∉ authorized_ports ∧
        a.severity = if a.port ∈ known_risky_ports then "high" else "medium") ∧
    (∀ (logs : List FirewallLogRE) (h : String),
        (∃ l, l ∈ logs ∧ l.action = "ALLOW" ∧ l.dst_ip = h ∧ l.dst_port = 3389) →
        (detect_open_port_anomalies logs).countP
          (fun a => decide ((a.host, a.destination_port) = (h, 3389))) = 1 ∧
        (∀ a, a ∈ detect_open_port_anomalies logs → a.host = h →
          a.destination_port = 3389 → a.severity = "HIGH")) := by
  refine ⟨?_, ?_, ?_⟩
  · rintro logs h p hp ⟨l, hl, hact, hh, hport⟩
    simp only [detect_open_ports]
    rw [countP_filterMap_portAlert h p hp, dedup_fw_countP]
    rw [if_pos]
    rw [List.any_eq_true]
    refine ⟨l, List.mem_filter.mpr ⟨hl, by simp [hact]⟩, by simp [hh, hport]⟩
  · intro logs a ha
    simp only [detect_open_ports] at ha
    rw [List.mem_filterMap] at ha
    obtain ⟨e, _, hfe⟩ := ha
    have hdest : e.dest_port ∉ authorized_ports := by
      intro hc
      simp [portAlertForEntry, hc] at hfe
    unfold portAlertForEntry at hfe
    rw [if_neg hdest] at hfe
    obtain rfl := Option.some.inj hfe
    exact ⟨hdest, rfl⟩
  · rintro logs h ⟨l, hl, hact, hh, hport⟩
    have h3389 : (3389 : ℤ) ∉ ALLOWED_PORTS := by decide
    have hlog : portAnomalyForLog l = some
        { severity := "HIGH"
          host := l.dst_ip
          description := "Suspicious traffic allowed to port "
            ++ toString l.dst_port ++ " on " ++ l.dst_ip
          source_ip := l.src_ip, destination_ip := l.dst_ip
          destination_port := l.dst_port, protocol := l.protocol
          bytes := l.bytes, timestamp := l.timestamp } := by
      unfold portAnomalyForLog
      rw [if_neg (by rw [hport]; exact h3389), if_pos (by rw [hport]; decide)]
    constructor
    · simp only [detect_open_port_anomalies]
      rw [dedup_re_countP, if_pos]
      rw [List.any_eq_true]
      refine ⟨_, List.mem_filterMap.mpr
        ⟨l, List.mem_filter.mpr ⟨hl, by simp [hact]⟩, hlog⟩, by simp [hh, hport]⟩
    · intro a ha hahost haport
      simp only [detect_open_port_anomalies] at ha
      have ha2 : a ∈ (logs.filter (fun r => r.action == "ALLOW")).filterMap
          portAnomalyForLog := mem_of_mem_dedupByKeyGo ha
      rw [List.mem_filterMap] at ha2
      obtain ⟨e, _, hfe⟩ := ha2
      have hdest : e.dst_port ∉ ALLOWED_PORTS := by
        intro hc
        simp [portAnomalyForLog, hc] at hfe
      unfold portAnomalyForLog at hfe
      rw [if_neg hdest] at hfe
      obtain rfl := Option.some.inj hfe
      have he3389 : e.dst_port = 3389 := haport
      rw [if_pos (by rw [he3389]; decide)]

/-- C4, witness: five allowed records to (scada1, 23), a non-whitelisted
risky port, collapse to exactly one alert in detect_open_ports, and the
legacy detector emits exactly one alert for five records to
(10.0.1.10, 3389). -/
theorem c4_witness :
    (detect_open_ports [fwAllow 23 "a", fwAllow 23 "b", fwAllow 23 "c",
        fwAllow 23 "d", fwAllow 23 "e"]).countP
      (fun a => decide ((a.hostname, a.port) = ("scada1", 23))) = 1 ∧
    (detect_open_port_anomalies [fwAllowRE 3389 "a", fwAllowRE 3389 "b",
        fwAllowRE 3389 "c", fwAllowRE 3389 "d", fwAllowRE 3389 "e"]).countP
      (fun a => decide ((a.host, a.destination_port) = ("10.0.1.10", 3389))) = 1 := by
  constructor
  · exact c4_open_port_dedup.1 _ "scada1" 23 (by decide)
      ⟨fwAllow 23 "a", List.mem_cons_self _ _, rfl, rfl, rfl⟩
  · exact (c4_open_port_dedup.2.2 _ "10.0.1.10"
      ⟨fwAllowRE 3389 "a", List.mem_cons_self _ _, rfl, rfl, rfl⟩).1

/-! ## Claim C10 -/

/-- C10: the feedback endpoint is gated and append-only.  A request that is
missing or empty, lacks an alert_id (or carries an empty one), has an action
other than approved or rejected, or has a whitespace-only reason is answered
400 with the store untouched; an accepted request is answered 200 and
appends exactly one entry, whose action is the validated one and whose
stored reason is the stripped, non-empty reason, with all prior entries
preserved in place. -/
theorem c10_submit_feedback_gated_append (triaged : List TriagedAlert)
    (store : List FeedbackEntry) (req : Option FeedbackRequest) (now : String) :
    ((submit_feedback triaged store req now).1 ≠ 200 →
      (submit_feedback triaged store req now).2 = store) ∧
    ((submit_feedback triaged store req now).1 = 200 →
      ∃ d e, req = some d ∧
        (submit_feedback triaged store req now).2 = store ++ [e] ∧
        (e.action = some "approved" ∨ e.action = some "rejected") ∧
        e.action = d.action ∧
        e.reason = some (pyStrip (d.reason.getD "")) ∧
        e.reason ≠ some "" ∧
        d.alert_id = some e.alert_id ∧
        e.alert_id ≠ "") ∧
    (∀ d, req = some d →
      (d.alert_id = none ∨ d.alert_id = some "" ∨
        ¬(d.action = some "approved" ∨ d.action = some "rejected") ∨
        pyStrip (d.reason.getD "") = "") →
      submit_feedback triaged store req now = (400, store)) := by
  cases req with
  | none =>
    refine ⟨fun _ => rfl, fun h => ?_, fun d hd => by cases hd⟩
    simp [submit_feedback] at h
  | some data =>
    by_cases hID : data.alert_id = none ∨ data.alert_id = some ""
    · have hres : submit_feedback triaged store (some data) now = (400, store) := by
        simp [submit_feedback, hID]
      refine ⟨fun _ => by rw [hres], fun h => ?_, fun d hd _ => ?_⟩
      · rw [hres] at h
        simp at h
      · obtain rfl := Option.some.inj hd
        exact hres
    · by_cases hAct : data.action = some "approved" ∨ data.action = some "rejected"
      · by_cases hReason : pyStrip (data.reason.getD "") = ""
        · have hres : submit_feedback triaged store (some data) now = (400, store) := by
            simp [submit_feedback, hID, hAct, hReason]
          refine ⟨fun _ => by rw [hres], fun h => ?_, fun d hd _ => ?_⟩
          · rw [hres] at h
            simp at h
          · obtain rfl := Option.some.inj hd
            exact hres
        · push_neg at hID
          obtain ⟨hnone, hempty⟩ := hID
          rcases haid : data.alert_id with _ | s
          · exact absurd haid hnone
          have hs : s ≠ "" := by
            intro h
            exact hempty (by rw [haid, h])
          have hres : submit_feedback triaged store (some data) now =
              (200, store ++
                [{ alert_id := data.alert_id.getD ""
                   action := data.action
                   reason := some (pyStrip (data.reason.getD ""))
                   alert_type := some (orUnknown
                     (if data.alert_type = none ∨ data.alert_type = some "" then
                        lookupAlertType triaged (data.alert_id.getD "")
                      else data.alert_type))
                   timestamp := now
                   analyst := data.analyst.getD "anonymous" }]) := by
            simp only [submit_feedback]
            rw [if_neg (by push_neg; exact ⟨hnone, hempty⟩),
              if_neg (not_not_intro hAct), if_neg hReason]
          refine ⟨fun h => absurd (by rw [hres]) h, fun _ => ?_, fun d hd hbad => ?_⟩
          · refine ⟨data, _, rfl, by rw [hres], hAct, rfl, rfl, ?_, ?_, ?_⟩
            · intro h
              exact hReason (Option.some.inj h)
            · rw [haid]
              simp [haid]
            · simpa [haid] using hs
          · obtain rfl := Option.some.inj hd
            rcases hbad with h | h | h | h
            · exact absurd h hnone
            · exact absurd (by rw [h] : data.alert_id = some "") hempty
            · exact absurd hAct h
            · exact absurd h hReason
      · have hres : submit_feedback triaged store (some data) now = (400, store) := by
          simp [submit_feedback, hID, hAct]
        refine ⟨fun _ => by rw [hres], fun h => ?_, fun d hd _ => ?_⟩
        · rw [hres] at h
          simp at h
        · obtain rfl := Option.some.inj hd
          exact hres

/-- C10, witness: the accepted-request branch applied to a concrete valid
request against a one-entry store. -/
theorem c10_witness :
    ∃ d e, (some reqGood : Option FeedbackRequest) = some d ∧
      (submit_feedback [] [fbApproved] (some reqGood) "now").2 = [fbApproved] ++ [e] ∧
      (e.action = some "approved" ∨ e.action = some "rejected") ∧
      e.action = d.action ∧
      e.reason = some (pyStrip (d.reason.getD "")) ∧
      e.reason ≠ some "" ∧
      d.alert_id = some e.alert_id ∧
      e.alert_id ≠ "" :=
  (c10_submit_feedback_gated_append [] [fbApproved] (some reqGood) "now").2.1
    (by decide)

end SOC
